import Mathlib

/-!
Verification development for the stavrobot coder server
(`coder/server.py`): a shallow embedding of the task-execution
pipeline — plugin-name validation, identity mapping, credential
provisioning and teardown, subprocess execution with timeout,
structured-output parsing and result reporting — together with
theorems settling the specification claims.

External effects (filesystem calls, `subprocess.run`, `urllib`,
`json.loads`) are modelled as oracle fields of explicit world
structures: each oracle records the outcome the outside world would
produce for the single call the source makes, either a value or a
raised Python exception.  The control flow, string formatting and
ordering of operations are translated directly from the source.
-/

/-- Kind of a Python exception, as far as the source's handlers
distinguish them: `except subprocess.TimeoutExpired` and
`except FileNotFoundError` are the only type-specific handlers. -/
inductive PyExcKind where
  | timeoutExpired
  | fileNotFound
  | valueError
  | keyError
  | jsonDecodeError
  | typeError
  | attributeError
  | osError
deriving DecidableEq, Repr

/-- A raised Python exception: its kind and its `str(e)` description. -/
structure PyExc where
  kind : PyExcKind
  desc : String
deriving DecidableEq, Repr

/-- Result of a Python expression that may raise. -/
abbrev PyResult (α : Type) := Except PyExc α

/- ### String helpers (kernel-reducible models of the Python string
operations the source uses) -/

/-- Python whitespace characters relevant to `str.strip()` (ASCII). -/
def isPyWhitespace (c : Char) : Bool :=
  c = ' ' || c = '\t' || c = '\n' || c = '\r' || c = '\x0b' || c = '\x0c'

/-- Model of Python `str.strip()` with no argument. -/
def pyStrip (s : String) : String :=
  String.mk (((s.toList.dropWhile isPyWhitespace).reverse.dropWhile isPyWhitespace).reverse)

/-- Model of Python slicing `s[:n]`. -/
def pyTake (n : Nat) (s : String) : String :=
  String.mk (s.toList.take n)

/-- Model of Python `s.replace("-", "_")` (single-character pattern). -/
def replaceDashUnderscore (s : String) : String :=
  String.mk (s.toList.map (fun c => if c = '-' then '_' else c))

/-- Does `needle` occur at the head of `hay`? -/
def matchesAt : List Char → List Char → Bool
  | [], _ => true
  | _ :: _, [] => false
  | a :: as, b :: bs => a = b && matchesAt as bs

/-- Does `needle` occur anywhere in `hay`? -/
def listContainsSub (needle : List Char) : List Char → Bool
  | [] => matchesAt needle []
  | c :: rest => matchesAt needle (c :: rest) || listContainsSub needle rest

/-- Substring containment test: Python `sub in s`. -/
def containsSubstring (s sub : String) : Bool :=
  listContainsSub sub.toList s.toList

/-- Escape of one character in the style of CPython `repr` for strings
made of printable ASCII plus the common control characters. -/
def pyEscapeChar (c : Char) : String :=
  if c = '\\' then "\\\\"
  else if c = '\n' then "\\n"
  else if c = '\t' then "\\t"
  else if c = '\r' then "\\r"
  else Char.toString c

/-- Model of Python `repr` for a string without quote characters
(the source only applies `!r` to plugin-name strings). -/
def pyReprStr (s : String) : String :=
  "\x27" ++ String.join (s.toList.map pyEscapeChar) ++ "\x27"

/-- Model of POSIX `os.path.join` on two components. -/
def osPathJoin (a b : String) : String :=
  if b.toList.head? = some '/' then b
  else if a.toList = [] then b
  else if a.toList.getLast? = some '/' then a ++ b
  else a ++ "/" ++ b

/- ### Module constants of `coder/server.py` -/

def APP_CHAT_URL : String := "http://app:3001/chat"
def CODER_ENV_PATH : String := "/run/coder-env"
def SYSTEM_PROMPT_PATH : String := "/app/system-prompt.txt"
def PLUGINS_DIR : String := "/plugins/"
def TASK_TIMEOUT_SECONDS : Nat := 600
def MAX_USERNAME_LENGTH : Nat := 32
def CODER_CREDENTIALS_PATH : String := "/home/coder/.claude/.credentials.json"

/- ### The plugin-name pattern `^[a-z0-9-]+$` -/

/-- Membership in the character class `[a-z0-9-]`. -/
def isPluginNameChar (c : Char) : Bool :=
  ('a' ≤ c && c ≤ 'z') || ('0' ≤ c && c ≤ '9') || c = '-'

/-- Anchored match of `^[a-z0-9-]+$` over the WHOLE string: nonempty
and every character in the class. -/
def fullPluginMatch (s : String) : Bool :=
  !s.toList.isEmpty && s.toList.all isPluginNameChar

/-- `PLUGIN_NAME_RE.match(s)` truthiness under CPython `re` semantics:
with no flags, `$` matches at the end of the string OR just before a
newline that is the last character, so a single trailing newline after
the matched name is also accepted. -/
def pluginNameMatches (s : String) : Bool :=
  fullPluginMatch s ||
    (match s.toList.getLast? with
     | some c => c = '\n' && fullPluginMatch (String.mk s.toList.dropLast)
     | none => false)

/- ### Identity Mapper: `ensure_plugin_user` -/

/-- The derived system account name:
`f"plug_{plugin_name.replace('-', '_')}"[:MAX_USERNAME_LENGTH]`. -/
def plugin_username (plugin_name : String) : String :=
  pyTake MAX_USERNAME_LENGTH ("plug_" ++ replaceDashUnderscore plugin_name)

/-- Observable outcome of one `subprocess.run([...], check=False)` on an
account tool: either the tool ran (any exit code, captured stderr), or
the binary was absent and the call raised `FileNotFoundError`.  With
`check=False` a nonzero exit code does not raise. -/
inductive ToolOutcome where
  | ran (returncode : Int) (stderr : String)
  | notFound
deriving Repr

/-- Oracle outcomes for the `groupadd` and `useradd` invocations. -/
structure IdentWorld where
  groupadd : ToolOutcome
  useradd : ToolOutcome
deriving Repr

def toolchainWarning (username : String) : String :=
  "[stavrobot-coder] Warning: useradd/groupadd not available, skipping user creation for " ++ username

def groupaddWarning (username : String) (code : Int) (stderr : String) : String :=
  "[stavrobot-coder] Warning: groupadd exited with code " ++ toString code ++
    " for " ++ username ++ ": " ++ pyStrip stderr

def useraddWarning (username : String) (code : Int) (stderr : String) : String :=
  "[stavrobot-coder] Warning: useradd exited with code " ++ toString code ++
    " for " ++ username ++ ": " ++ pyStrip stderr

/-- `ensure_plugin_user(plugin_name, uid, gid)`.  Both tool invocations
use `check=False`; exit code 9 ("already exists") and 0 produce no
warning, any other exit code produces a warning line, and a
`FileNotFoundError` from either invocation is caught by the
`except FileNotFoundError` handler, which prints the toolchain warning.
The returned value is the list of warning lines printed; the
`PyResult` codomain records that no exception can escape (every branch
is `.ok`) while keeping the same shape as the other pipeline stages. -/
def ensure_plugin_user (plugin_name : String) (_uid _gid : Nat) (w : IdentWorld) :
    PyResult (List String) :=
  let username := plugin_username plugin_name
  match w.groupadd with
  | ToolOutcome.notFound => Except.ok [toolchainWarning username]
  | ToolOutcome.ran gcode gerr =>
    let gw : List String :=
      if gcode = 0 ∨ gcode = 9 then [] else [groupaddWarning username gcode gerr]
    match w.useradd with
    | ToolOutcome.notFound => Except.ok (gw ++ [toolchainWarning username])
    | ToolOutcome.ran ucode uerr =>
      let uw : List String :=
        if ucode = 0 ∨ ucode = 9 then [] else [useraddWarning username ucode uerr]
      Except.ok (gw ++ uw)

/- ### Credential Custodian: `setup_plugin_credentials` and
`teardown_plugin_credentials` -/

/-- A filesystem side effect performed by the credential custodian. -/
inductive FsAction where
  | removeFile (path : String)
  | copyFile (src dst : String)
  | rmtreeDir (path : String)
  | makeDirs (path : String)
  | chownPath (path : String) (uid gid : Nat)
  | chmodPath (path : String) (mode : Nat)
deriving DecidableEq, Repr

def FsAction.isCopy : FsAction → Bool
  | FsAction.copyFile _ _ => true
  | _ => false

def FsAction.isRmtree : FsAction → Bool
  | FsAction.rmtreeDir _ => true
  | _ => false

/-- Sequence one fallible filesystem call in front of the rest of a
trace: if the call raises, the exception propagates (the trace of the
failed run is not observed further by any claim). -/
def seqAct (r : PyResult Unit) (a : FsAction) (rest : PyResult (List FsAction)) :
    PyResult (List FsAction) :=
  match r with
  | Except.error e => Except.error e
  | Except.ok _ =>
    match rest with
    | Except.error e => Except.error e
    | Except.ok acts => Except.ok (a :: acts)

/-- Oracle outcomes for the filesystem calls `setup_plugin_credentials`
makes, plus the `os.path.islink` observation it starts from. -/
structure SetupWorld where
  isLink : Bool
  removeResult : PyResult Unit
  makedirsResult : PyResult Unit
  copyResult : PyResult Unit
  chownDirResult : PyResult Unit
  chmodDirResult : PyResult Unit
  chownFileResult : PyResult Unit
  chmodFileResult : PyResult Unit
deriving Repr

/-- `setup_plugin_credentials(plugin_dir, uid, gid)`: if the `.claude`
path is a symlink, remove the link first; then `makedirs`, copy the
shared credentials in, and set ownership and permissions (0700 on the
directory, 0600 on the file).  Any failing call raises and aborts the
task before the subprocess is launched. -/
def setup_plugin_credentials (plugin_dir : String) (uid gid : Nat) (w : SetupWorld) :
    PyResult (List FsAction) :=
  let plugin_claude_dir := osPathJoin plugin_dir ".claude"
  let plugin_credentials := osPathJoin plugin_claude_dir ".credentials.json"
  let tail :=
    seqAct w.makedirsResult (FsAction.makeDirs plugin_claude_dir)
      (seqAct w.copyResult (FsAction.copyFile CODER_CREDENTIALS_PATH plugin_credentials)
        (seqAct w.chownDirResult (FsAction.chownPath plugin_claude_dir uid gid)
          (seqAct w.chmodDirResult (FsAction.chmodPath plugin_claude_dir 0o700)
            (seqAct w.chownFileResult (FsAction.chownPath plugin_credentials uid gid)
              (seqAct w.chmodFileResult (FsAction.chmodPath plugin_credentials 0o600)
                (Except.ok []))))))
  if w.isLink then
    seqAct w.removeResult (FsAction.removeFile plugin_claude_dir) tail
  else
    tail

/-- Oracle outcomes for the calls `teardown_plugin_credentials` makes:
the `os.path.islink` observation, the `os.remove` on a link, the
`os.path.exists` observation on the per-task credential file, and the
`shutil.copy2` back to the shared location.  `shutil.rmtree` is called
with `ignore_errors=True` and never raises. -/
structure TeardownWorld where
  isLink : Bool
  removeResult : PyResult Unit
  credExists : Bool
  copyBackResult : PyResult Unit
deriving Repr

/-- `teardown_plugin_credentials(plugin_dir)`: if the `.claude` path is
now a symlink, remove only the link and return; otherwise copy the
per-task credential file back to the shared location when it still
exists, then remove the whole subtree with errors ignored. -/
def teardown_plugin_credentials (plugin_dir : String) (w : TeardownWorld) :
    PyResult (List FsAction) :=
  let plugin_claude_dir := osPathJoin plugin_dir ".claude"
  let plugin_credentials := osPathJoin plugin_claude_dir ".credentials.json"
  if w.isLink then
    seqAct w.removeResult (FsAction.removeFile plugin_claude_dir) (Except.ok [])
  else if w.credExists then
    seqAct w.copyBackResult (FsAction.copyFile plugin_credentials CODER_CREDENTIALS_PATH)
      (Except.ok [FsAction.rmtreeDir plugin_claude_dir])
  else
    Except.ok [FsAction.rmtreeDir plugin_claude_dir]

/- ### `read_coder_env` -/

/-- Split a list of characters at the first `=`, if any: Python
`line.split("=", 1)` together with the `"=" in line` test. -/
def splitFirstEq : List Char → Option (List Char × List Char)
  | [] => none
  | c :: rest =>
    if c = '=' then some ([], rest)
    else
      match splitFirstEq rest with
      | some (k, v) => some (c :: k, v)
      | none => none

/-- Split file content into lines at newline characters (iterating a
Python text file yields the same lines up to the retained terminator,
which the subsequent `strip()` removes). -/
def splitLinesAux (acc : List Char) : List Char → List String
  | [] => [String.mk acc.reverse]
  | c :: rest =>
    if c = '\n' then String.mk acc.reverse :: splitLinesAux [] rest
    else splitLinesAux (c :: acc) rest

def splitLines (s : String) : List String :=
  splitLinesAux [] s.toList

/-- Python dict assignment `env[key] = value`: an existing key keeps
its position and gets the new value, a new key is appended. -/
def envSet : List (String × String) → String → String → List (String × String)
  | [], k, v => [(k, v)]
  | (k0, v0) :: rest, k, v =>
    if k0 = k then (k, v) :: rest else (k0, v0) :: envSet rest k v

/-- Python dict lookup `env[key]` as an `Option`. -/
def envLookup : List (String × String) → String → Option String
  | [], _ => none
  | (k, v) :: rest, key => if k = key then some v else envLookup rest key

/-- Process one line of the env file: strip it and, if it contains an
`=`, record `key = part before the first =`, `value = the rest`. -/
def envAddLine (env : List (String × String)) (rawLine : String) : List (String × String) :=
  match splitFirstEq (pyStrip rawLine).toList with
  | none => env
  | some (k, v) => envSet env (String.mk k) (String.mk v)

/-- The dictionary `read_coder_env` builds from the file content. -/
def parseEnvContent (content : String) : List (String × String) :=
  (splitLines content).foldl envAddLine []

/-- `read_coder_env()`: open `CODER_ENV_PATH` (the oracle supplies the
content or the exception `open` raises) and fold the lines into a
dictionary. -/
def read_coder_env (fileContent : PyResult String) : PyResult (List (String × String)) :=
  match fileContent with
  | Except.error e => Except.error e
  | Except.ok content => Except.ok (parseEnvContent content)

/- ### JSON values as `json.loads` produces them -/

/-- A decoded JSON value (numbers modelled as integers; floating-point
payloads are out of scope for the claims). -/
inductive JsonVal where
  | null
  | bool (b : Bool)
  | num (n : Int)
  | str (s : String)
  | arr (xs : List JsonVal)
  | obj (fields : List (String × JsonVal))
deriving Repr

/-- Python dict lookup `output.get(key)` as an `Option` (objects from
`json.loads` have the last duplicate win; the oracle supplies the
already-deduplicated field list). -/
def jsonGet : List (String × JsonVal) → String → Option JsonVal
  | [], _ => none
  | (k, v) :: rest, key => if k = key then some v else jsonGet rest key

/-- Python `output.get(key, default)`. -/
def jsonGetD (fields : List (String × JsonVal)) (key : String) (dflt : JsonVal) : JsonVal :=
  match jsonGet fields key with
  | some v => v
  | none => dflt

/-- Python truthiness of a decoded JSON value. -/
def jsonTruthy : JsonVal → Bool
  | JsonVal.null => false
  | JsonVal.bool b => b
  | JsonVal.num n => n != 0
  | JsonVal.str s => !s.toList.isEmpty
  | JsonVal.arr xs => !xs.isEmpty
  | JsonVal.obj fs => !fs.isEmpty

/-- Python `==` between a decoded JSON value and a Python string:
true exactly when the value is that string. -/
def jsonEqStr : JsonVal → String → Bool
  | JsonVal.str s, t => s = t
  | _, _ => false

/-- Python type name of a decoded JSON value, for exception texts. -/
def pyTypeName : JsonVal → String
  | JsonVal.null => "NoneType"
  | JsonVal.bool _ => "bool"
  | JsonVal.num _ => "int"
  | JsonVal.str _ => "str"
  | JsonVal.arr _ => "list"
  | JsonVal.obj _ => "dict"

mutual
/-- Python `str()` rendering of a decoded JSON value (repr-style inside
containers, as CPython prints them; the exact container rendering is
not load-bearing for any claim). -/
def pyStr : JsonVal → String
  | JsonVal.str s => s
  | v => pyRepr v

def pyRepr : JsonVal → String
  | JsonVal.null => "None"
  | JsonVal.bool b => if b then "True" else "False"
  | JsonVal.num n => toString n
  | JsonVal.str s => "\x27" ++ s ++ "\x27"
  | JsonVal.arr xs => "[" ++ pyReprList xs ++ "]"
  | JsonVal.obj fs => "\x7b" ++ pyReprFields fs ++ "\x7d"

def pyReprList : List JsonVal → String
  | [] => ""
  | [x] => pyRepr x
  | x :: y :: rest => pyRepr x ++ ", " ++ pyReprList (y :: rest)

def pyReprFields : List (String × JsonVal) → String
  | [] => ""
  | [(k, v)] => "\x27" ++ k ++ "\x27: " ++ pyRepr v
  | (k, v) :: p :: rest => "\x27" ++ k ++ "\x27: " ++ pyRepr v ++ ", " ++ pyReprFields (p :: rest)
end

/-- `"\n".join(str(e) for e in errors)`.  Iterating a decoded list maps
each element through `str`; iterating a string yields its characters,
iterating a dict yields its keys, and iterating `None`, a bool or a
number raises `TypeError` (description approximating CPython's). -/
def joinErrors : JsonVal → PyResult String
  | JsonVal.arr xs => Except.ok (String.intercalate "\n" (xs.map pyStr))
  | JsonVal.str s => Except.ok (String.intercalate "\n" (s.toList.map Char.toString))
  | JsonVal.obj fs => Except.ok (String.intercalate "\n" (fs.map (fun p => p.1)))
  | v => Except.error ⟨PyExcKind.typeError, "\x27" ++ pyTypeName v ++ "\x27 object is not iterable"⟩

/- ### Task Runner: `run_coding_task` -/

/-- Captured output of a completed `subprocess.run` with
`capture_output=True, text=True`. -/
structure ProcOutput where
  returncode : Int
  stdout : String
  stderr : String
deriving Repr

/-- Oracle outcome of the `claude` subprocess invocation: it completed
(any exit code), exceeded the wall-clock timeout and
`subprocess.TimeoutExpired` was raised, or the launch itself raised. -/
inductive ExecOutcome where
  | completed (out : ProcOutput)
  | timedOut (desc : String)
  | raised (e : PyExc)
deriving Repr

/-- The fixed usage-hint footer appended to a successful result. -/
def usage_footer : String :=
  "\n\n---\nTo use this plugin:\n- list_plugins: see all available plugins\n- show_plugin(name): see tools in a plugin and their parameters\n- run_plugin_tool(plugin, tool, parameters): run a tool"

/-- The synthesized failure text for empty subprocess output. -/
def noOutputText (returncode : Int) (snippet : String) : String :=
  "Coding task failed: claude produced no output (exit code " ++ toString returncode ++
    "). stderr: " ++ snippet

/-- The fixed timeout failure text
`f"Coding task failed: timed out after {TASK_TIMEOUT_SECONDS} seconds."`. -/
def timeoutFailureText : String :=
  "Coding task failed: timed out after " ++ toString TASK_TIMEOUT_SECONDS ++ " seconds."

/-- The PARSE stage of `run_coding_task`, applied to the completed
subprocess output: empty/whitespace stdout synthesizes a failure text
embedding the exit code and a 500-character stderr snippet; otherwise
the stdout is decoded (`loads` is the `json.loads` oracle) and the
record's `subtype`/`is_error`/`errors`/`result` fields drive the text.
A `.error` value is an exception that the top-level handler converts. -/
def parseStage (out : ProcOutput) (loads : String → PyResult JsonVal) : PyResult String :=
  if pyStrip out.stdout = "" then
    let snippet := if out.stderr = "" then "no output" else pyTake 500 (pyStrip out.stderr)
    Except.ok (noOutputText out.returncode snippet)
  else
    match loads out.stdout with
    | Except.error e => Except.error e
    | Except.ok (JsonVal.obj fields) =>
      let subtype := jsonGetD fields "subtype" (JsonVal.str "")
      let is_error := jsonGetD fields "is_error" (JsonVal.bool false)
      if !jsonEqStr subtype "success" || jsonTruthy is_error then
        match joinErrors (jsonGetD fields "errors" (JsonVal.arr [])) with
        | Except.ok joined => Except.ok ("Coding task failed: " ++ joined)
        | Except.error e => Except.error e
      else
        match jsonGet fields "result" with
        | none => Except.ok ("" ++ usage_footer)
        | some (JsonVal.str s) => Except.ok (s ++ usage_footer)
        | some v =>
          Except.error ⟨PyExcKind.typeError,
            "unsupported operand type(s) for +: \x27" ++ pyTypeName v ++ "\x27 and \x27str\x27"⟩
    | Except.ok v =>
      Except.error ⟨PyExcKind.attributeError,
        "\x27" ++ pyTypeName v ++ "\x27 object has no attribute \x27get\x27"⟩

/-- Oracle outcomes for one whole `run_coding_task` invocation:
one field per external call the source makes, in source order. -/
structure World where
  envFile : PyResult String
  statResult : PyResult (Nat × Nat)
  ident : IdentWorld
  setup : SetupWorld
  cacheMakedirs : PyResult Unit
  cacheChownPlugin : PyResult Unit
  cacheChownUv : PyResult Unit
  execOutcome : ExecOutcome
  jsonLoads : String → PyResult JsonVal
  teardown : TeardownWorld
  urlopen : PyResult Nat

/-- What the body of the `try` block produced: the value of the
`credentials_set_up` flag at exit, how many times the subprocess was
launched, and either the computed `result_text` or the exception that
left the block. -/
structure TryResult where
  credentials_set_up : Bool
  launches : Nat
  outcome : PyResult String
deriving Repr

/-- The `try` block of `run_coding_task`, stage by stage in source
order: stat the working directory, ensure the plugin user, provision
credentials (setting the flag), prepare the cache directory (makedirs
plus two chowns), launch the subprocess, parse its output. -/
def tryBody (plugin cwd : String) (w : World) : TryResult :=
  match w.statResult with
  | Except.error e => ⟨false, 0, Except.error e⟩
  | Except.ok (uid, gid) =>
    match ensure_plugin_user plugin uid gid w.ident with
    | Except.error e => ⟨false, 0, Except.error e⟩
    | Except.ok _ =>
      match setup_plugin_credentials cwd uid gid w.setup with
      | Except.error e => ⟨false, 0, Except.error e⟩
      | Except.ok _ =>
        match w.cacheMakedirs with
        | Except.error e => ⟨true, 0, Except.error e⟩
        | Except.ok _ =>
          match w.cacheChownPlugin with
          | Except.error e => ⟨true, 0, Except.error e⟩
          | Except.ok _ =>
            match w.cacheChownUv with
            | Except.error e => ⟨true, 0, Except.error e⟩
            | Except.ok _ =>
              match w.execOutcome with
              | ExecOutcome.timedOut d => ⟨true, 1, Except.error ⟨PyExcKind.timeoutExpired, d⟩⟩
              | ExecOutcome.raised e => ⟨true, 1, Except.error e⟩
              | ExecOutcome.completed out => ⟨true, 1, parseStage out w.jsonLoads⟩

/-- The two `except` clauses: `subprocess.TimeoutExpired` yields the
fixed timeout text, any other exception yields
`f"Coding task failed: {error}"`. -/
def handleExceptions : PyResult String → String
  | Except.ok t => t
  | Except.error e =>
    if e.kind = PyExcKind.timeoutExpired then timeoutFailureText
    else "Coding task failed: " ++ e.desc

/-- Result of the Result Reporter `post_result(message)`: the single
POST it attempts (payload fields as serialized), and the exception the
`urlopen` call raised, if any — there is no handler around it, so a
raised exception propagates to the caller. -/
structure PostOutcome where
  attempts : Nat
  sentMessage : String
  sentSource : String
  sentSender : String
  raised : Option PyExc
deriving Repr

/-- Oracle outcome of `urllib.request.urlopen`: the HTTP status of a
successful (2xx) response, or the `HTTPError`/`URLError` it raised. -/
structure PostWorld where
  urlopen : PyResult Nat
deriving Repr

/-- `post_result(message)`: serialize the payload and perform exactly
one POST to `APP_CHAT_URL`; a non-2xx response or a network failure
makes `urlopen` raise and the exception leaves `post_result` uncaught. -/
def post_result (message : String) (w : PostWorld) : PostOutcome :=
  { attempts := 1
    sentMessage := message
    sentSource := "coder"
    sentSender := "coder-agent"
    raised :=
      match w.urlopen with
      | Except.ok _ => none
      | Except.error e => some e }

/-- Observable outcome of one `run_coding_task` invocation. -/
structure RunOutcome where
  launches : Nat
  teardownInvoked : Bool
  posted : List String
  escaped : Option PyExc
deriving Repr

/-- The part of `run_coding_task` from the `try` block on: run the
body, convert a caught exception to `result_text`, run teardown in the
`finally` block when `credentials_set_up` is set (an exception raised
by teardown propagates and the result is never posted), then call
`post_result` with the text. -/
def runPipeline (plugin cwd : String) (w : World) : RunOutcome :=
  let tr := tryBody plugin cwd w
  let result_text := handleExceptions tr.outcome
  if tr.credentials_set_up then
    match teardown_plugin_credentials cwd w.teardown with
    | Except.error e => ⟨tr.launches, true, [], some e⟩
    | Except.ok _ =>
      let po := post_result result_text ⟨w.urlopen⟩
      ⟨tr.launches, true, [po.sentMessage], po.raised⟩
  else
    let po := post_result result_text ⟨w.urlopen⟩
    ⟨tr.launches, false, [po.sentMessage], po.raised⟩

/-- `run_coding_task(task_id, message, plugin)`.  The plugin-name
re-check, `read_coder_env()` and the `env["MODEL"]` lookup all run
BEFORE the `try` block: an exception in any of them leaves the function
with nothing posted.  Only from `os.stat` on is the pipeline guarded by
the `try`/`except`/`finally`. -/
def run_coding_task (_task_id _message plugin : String) (w : World) : RunOutcome :=
  if pluginNameMatches plugin then
    match read_coder_env w.envFile with
    | Except.error e => ⟨0, false, [], some e⟩
    | Except.ok env =>
      match envLookup env "MODEL" with
      | none => ⟨0, false, [], some ⟨PyExcKind.keyError, "\x27MODEL\x27"⟩⟩
      | some _model => runPipeline plugin (osPathJoin PLUGINS_DIR plugin) w
  else
    ⟨0, false, [], some ⟨PyExcKind.valueError, "Invalid plugin name: " ++ pyReprStr plugin⟩⟩

/- ### Dispatch Server: the `POST /code` handler -/

/-- Observable outcome of `do_POST` on `/code` for a well-formed JSON
body with the three fields extracted: the HTTP status sent, the error
message (for a 400), and whether a Task Runner thread was started. -/
structure CodeRequestOutcome where
  status : Nat
  errorMessage : Option String
  taskStarted : Bool
deriving Repr

/-- The `/code` branch of `RequestHandler.do_POST`: reject with 400 when
the plugin name fails `PLUGIN_NAME_RE.match` or when
`os.path.isdir(os.path.join(PLUGINS_DIR, plugin))` is false (`isDir` is
the filesystem oracle); otherwise start the Task Runner thread and
acknowledge with 202. -/
def handle_code_post (_task_id _message plugin : String) (isDir : String → Bool) :
    CodeRequestOutcome :=
  if !pluginNameMatches plugin then
    ⟨400, some ("Invalid plugin name: " ++ pyReprStr plugin), false⟩
  else if !isDir (osPathJoin PLUGINS_DIR plugin) then
    ⟨400, some ("Plugin directory not found: " ++ pyReprStr plugin), false⟩
  else
    ⟨202, none, true⟩

/- ### Helper lemmas -/

/-- No branch of the Identity Mapper raises: every combination of tool
outcomes ends in `.ok` with the printed warning lines. -/
theorem ensure_plugin_user_always_ok (plugin_name : String) (uid gid : Nat) (w : IdentWorld) :
    ∃ warnings, ensure_plugin_user plugin_name uid gid w = Except.ok warnings := by
  unfold ensure_plugin_user
  cases w.groupadd with
  | notFound => exact ⟨_, rfl⟩
  | ran gcode gerr =>
    cases w.useradd with
    | notFound => exact ⟨_, rfl⟩
    | ran ucode uerr => exact ⟨_, rfl⟩

/-- Whatever the `try` block produced, if the teardown that the
`finally` block may run does not raise, `post_result` is invoked with
exactly one message. -/
theorem runPipeline_posts_exactly_one (plugin cwd : String) (w : World) (tacts : List FsAction)
    (htd : teardown_plugin_credentials cwd w.teardown = Except.ok tacts) :
    (runPipeline plugin cwd w).posted.length = 1 := by
  unfold runPipeline
  cases h : (tryBody plugin cwd w).credentials_set_up
  · simp [h, post_result]
  · simp [h, htd, post_result]

/- ### Concrete worlds used by witnesses and counterexamples -/

def identOkW : IdentWorld := ⟨ToolOutcome.ran 0 "", ToolOutcome.ran 0 ""⟩

def setupOkW : SetupWorld :=
  ⟨false, Except.ok (), Except.ok (), Except.ok (), Except.ok (),
   Except.ok (), Except.ok (), Except.ok ()⟩

/-- Teardown oracle for a run whose per-task credential file is gone. -/
def teardownNoCredW : TeardownWorld := ⟨false, Except.ok (), false, Except.ok ()⟩

/-- A `json.loads` oracle that always raises `JSONDecodeError`. -/
def loadsFailW : String → PyResult JsonVal :=
  fun _ => Except.error ⟨PyExcKind.jsonDecodeError, "Expecting value: line 1 column 1 (char 0)"⟩

/-- A world in which opening `/run/coder-env` raises
`FileNotFoundError` and every later oracle would succeed. -/
def envFailWorld : World :=
  { envFile := Except.error
      ⟨PyExcKind.fileNotFound, "[Errno 2] No such file or directory: \x27/run/coder-env\x27"⟩
    statResult := Except.ok (1000, 1000)
    ident := identOkW
    setup := setupOkW
    cacheMakedirs := Except.ok ()
    cacheChownPlugin := Except.ok ()
    cacheChownUv := Except.ok ()
    execOutcome := ExecOutcome.completed ⟨0, "", ""⟩
    jsonLoads := loadsFailW
    teardown := teardownNoCredW
    urlopen := Except.ok 200 }

/-- A world in which `os.stat` on the plugin directory raises but the
env file is fine; the pipeline aborts pre-execution and reports. -/
def statFailWorld : World :=
  { envFailWorld with
    envFile := Except.ok "MODEL=m1"
    statResult := Except.error
      ⟨PyExcKind.fileNotFound, "[Errno 2] No such file or directory: \x27/plugins/demo\x27"⟩ }

/- ### Claim C1 -/

/-- Claim C1, counterexample.  The claim states that EVERY invocation of
the Task Runner — including one whose environment-file read fails —
converts the failure to a text and delivers exactly one result.  In the
source, `read_coder_env()` runs before the `try` block of
`run_coding_task`, so a `FileNotFoundError` from it propagates out of
the function and nothing is ever posted: in `envFailWorld` the run
posts zero results and ends with an escaped exception. -/
theorem C1_counterexample :
    (run_coding_task "task-1" "do it" "myplugin" envFailWorld).posted = [] ∧
    (run_coding_task "task-1" "do it" "myplugin" envFailWorld).escaped.isSome = true := by
  exact ⟨rfl, rfl⟩

/-- Claim C1 (amended): for every accepted task whose plugin name passes
the `PLUGIN_NAME_RE` re-check, whose environment file is readable with a
`MODEL` entry, and whose credential teardown (as the `finally` block
would run it) does not raise, every failure in the remaining stages —
stat, identity setup, credential provisioning, cache preparation,
subprocess execution, output parsing — is converted to a textual failure
message and `post_result` is invoked with exactly one result.  Failures
in plugin-name validation, environment-file reading, the `MODEL` lookup
or teardown instead escape the thread with no result delivered. -/
theorem C1_amended (task_id message plugin : String) (w : World) (c m : String)
    (tacts : List FsAction)
    (hname : pluginNameMatches plugin = true)
    (henv : w.envFile = Except.ok c)
    (hmodel : envLookup (parseEnvContent c) "MODEL" = some m)
    (htd : teardown_plugin_credentials (osPathJoin PLUGINS_DIR plugin) w.teardown =
      Except.ok tacts) :
    (run_coding_task task_id message plugin w).posted.length = 1 := by
  unfold run_coding_task read_coder_env
  rw [henv]
  simp only [hname, if_true, hmodel]
  exact runPipeline_posts_exactly_one plugin _ w tacts htd

/-- Witness for the amended C1: with the stat call failing, the run
still posts exactly one (failure) result. -/
theorem C1_amended_witness :
    (run_coding_task "t" "m" "demo" statFailWorld).posted.length = 1 :=
  C1_amended "t" "m" "demo" statFailWorld "MODEL=m1" "m1"
    [FsAction.rmtreeDir "/plugins/demo/.claude"] rfl rfl rfl rfl

/- ### Claim C2 -/

/-- Claim C2, counterexample.  The claim reads `^[a-z0-9-]+$` as an
anchored match over the whole string; CPython `re.match` also lets `$`
match just before a trailing newline, so the plugin string with one
trailing newline after a valid name does NOT match as a whole-string
anchored pattern, yet the handler accepts it: with a filesystem in
which the directory exists, `do_POST` answers 202 and starts a task. -/
theorem C2_counterexample :
    fullPluginMatch "a\n" = false ∧
    (handle_code_post "t2" "m" "a\n" (fun _ => true)).status = 202 ∧
    (handle_code_post "t2" "m" "a\n" (fun _ => true)).taskStarted = true := by
  exact ⟨rfl, rfl, rfl⟩

/-- Claim C2 (amended): for every `POST /code` request whose plugin
string does not match `PLUGIN_NAME_RE` under CPython `re.match`
semantics (which also accept a single trailing newline after the
matched name), or whose plugin working directory does not exist as a
directory, the server responds 400 and starts no task. -/
theorem C2_amended (task_id message plugin : String) (isDir : String → Bool)
    (h : pluginNameMatches plugin = false ∨ isDir (osPathJoin PLUGINS_DIR plugin) = false) :
    (handle_code_post task_id message plugin isDir).status = 400 ∧
    (handle_code_post task_id message plugin isDir).taskStarted = false := by
  unfold handle_code_post
  rcases h with h | h
  · simp [h]
  · cases hn : pluginNameMatches plugin
    · simp [hn]
    · simp [hn, h]

/-- Witness for the amended C2: an uppercase plugin name is rejected
with 400 and no task starts. -/
theorem C2_amended_witness :
    (handle_code_post "t3" "m" "Bad" (fun _ => false)).status = 400 ∧
    (handle_code_post "t3" "m" "Bad" (fun _ => false)).taskStarted = false :=
  C2_amended "t3" "m" "Bad" (fun _ => false) (Or.inl rfl)

/- ### Claim C3 -/

/-- Claim C3: whenever the per-task credential subdirectory is a
symbolic link at teardown time, teardown performs exactly one
filesystem action — `os.remove` on the link path itself — and in
particular no copy-back and no recursive deletion, so the link's
target is neither deleted nor modified. -/
theorem C3_teardown_symlink (plugin_dir : String) (w : TeardownWorld)
    (hl : w.isLink = true) (hr : w.removeResult = Except.ok ()) :
    teardown_plugin_credentials plugin_dir w =
      Except.ok [FsAction.removeFile (osPathJoin plugin_dir ".claude")] ∧
    ∀ a ∈ [FsAction.removeFile (osPathJoin plugin_dir ".claude")],
      a.isCopy = false ∧ a.isRmtree = false := by
  constructor
  · unfold teardown_plugin_credentials seqAct
    simp [hl, hr]
  · intro a ha
    simp only [List.mem_singleton] at ha
    subst ha
    exact ⟨rfl, rfl⟩

/-- Teardown oracle for a `.claude` path replaced by a symlink. -/
def symlinkTeardownW : TeardownWorld := ⟨true, Except.ok (), false, Except.ok ()⟩

/-- Witness for C3 at a concrete plugin directory. -/
theorem C3_witness :
    teardown_plugin_credentials "/plugins/demo" symlinkTeardownW =
      Except.ok [FsAction.removeFile "/plugins/demo/.claude"] := by
  have h := C3_teardown_symlink "/plugins/demo" symlinkTeardownW rfl rfl
  exact h.1.trans (by rfl)

/- ### Claim C4 -/

/-- Claim C4: when the per-task credential directory is not a symlink,
an existing per-task credential file is copied back to the shared
location strictly before the subtree is removed (the trace is exactly
`[copy, rmtree]`), and when the file (or the whole directory) is
missing the trace is just the `ignore_errors` rmtree and teardown
completes without raising. -/
theorem C4_teardown_not_symlink (plugin_dir : String) (w : TeardownWorld)
    (hl : w.isLink = false) :
    (w.credExists = true → w.copyBackResult = Except.ok () →
      teardown_plugin_credentials plugin_dir w =
        Except.ok
          [FsAction.copyFile (osPathJoin (osPathJoin plugin_dir ".claude") ".credentials.json")
            CODER_CREDENTIALS_PATH,
           FsAction.rmtreeDir (osPathJoin plugin_dir ".claude")]) ∧
    (w.credExists = false →
      teardown_plugin_credentials plugin_dir w =
        Except.ok [FsAction.rmtreeDir (osPathJoin plugin_dir ".claude")]) := by
  constructor
  · intro hc hcopy
    unfold teardown_plugin_credentials seqAct
    simp [hl, hc, hcopy]
  · intro hc
    unfold teardown_plugin_credentials
    simp [hl, hc]

/-- Teardown oracle for a run leaving the credential file in place. -/
def copybackTeardownW : TeardownWorld := ⟨false, Except.ok (), true, Except.ok ()⟩

/-- Witness for C4: concrete teardown with the file present copies it
back and then removes the tree, in that order. -/
theorem C4_witness :
    teardown_plugin_credentials "/plugins/demo" copybackTeardownW =
      Except.ok
        [FsAction.copyFile "/plugins/demo/.claude/.credentials.json" CODER_CREDENTIALS_PATH,
         FsAction.rmtreeDir "/plugins/demo/.claude"] := by
  have h := (C4_teardown_not_symlink "/plugins/demo" copybackTeardownW rfl).1 rfl rfl
  exact h.trans (by rfl)

/- ### Claim C5 -/

/-- Claim C5: a run whose subprocess hits the wall-clock timeout posts
exactly the fixed timeout text (which contains the configured
`TASK_TIMEOUT_SECONDS` value), launches the subprocess exactly once —
in particular at most once, with no retry — and still invokes teardown,
since provisioning had succeeded. -/
theorem C5_timeout_reported (task_id message plugin : String) (w : World)
    (c m : String) (uid gid : Nat) (sacts tacts : List FsAction) (d : String)
    (hname : pluginNameMatches plugin = true)
    (henv : w.envFile = Except.ok c)
    (hmodel : envLookup (parseEnvContent c) "MODEL" = some m)
    (hstat : w.statResult = Except.ok (uid, gid))
    (hsetup : setup_plugin_credentials (osPathJoin PLUGINS_DIR plugin) uid gid w.setup =
      Except.ok sacts)
    (hc1 : w.cacheMakedirs = Except.ok ())
    (hc2 : w.cacheChownPlugin = Except.ok ())
    (hc3 : w.cacheChownUv = Except.ok ())
    (hexec : w.execOutcome = ExecOutcome.timedOut d)
    (htd : teardown_plugin_credentials (osPathJoin PLUGINS_DIR plugin) w.teardown =
      Except.ok tacts) :
    (run_coding_task task_id message plugin w).posted = [timeoutFailureText] ∧
    containsSubstring timeoutFailureText (toString TASK_TIMEOUT_SECONDS) = true ∧
    (run_coding_task task_id message plugin w).launches = 1 ∧
    (run_coding_task task_id message plugin w).teardownInvoked = true := by
  obtain ⟨ws, hens⟩ := ensure_plugin_user_always_ok plugin uid gid w.ident
  refine ⟨?_, by decide, ?_, ?_⟩ <;>
    simp [run_coding_task, read_coder_env, henv, hmodel, hname, runPipeline, tryBody,
      hstat, hens, hsetup, hc1, hc2, hc3, hexec, htd, handleExceptions, post_result]

/-- A world whose subprocess invocation times out. -/
def timeoutWorld : World :=
  { envFailWorld with
    envFile := Except.ok "MODEL=m1"
    execOutcome := ExecOutcome.timedOut "Command timed out after 600 seconds" }

/-- Witness for C5 at a concrete world. -/
theorem C5_witness :
    (run_coding_task "t5" "m" "demo" timeoutWorld).posted = [timeoutFailureText] ∧
    containsSubstring timeoutFailureText (toString TASK_TIMEOUT_SECONDS) = true ∧
    (run_coding_task "t5" "m" "demo" timeoutWorld).launches = 1 ∧
    (run_coding_task "t5" "m" "demo" timeoutWorld).teardownInvoked = true :=
  C5_timeout_reported "t5" "m" "demo" timeoutWorld "MODEL=m1" "m1" 1000 1000
    [FsAction.makeDirs "/plugins/demo/.claude",
     FsAction.copyFile CODER_CREDENTIALS_PATH "/plugins/demo/.claude/.credentials.json",
     FsAction.chownPath "/plugins/demo/.claude" 1000 1000,
     FsAction.chmodPath "/plugins/demo/.claude" 0o700,
     FsAction.chownPath "/plugins/demo/.claude/.credentials.json" 1000 1000,
     FsAction.chmodPath "/plugins/demo/.claude/.credentials.json" 0o600]
    [FsAction.rmtreeDir "/plugins/demo/.claude"]
    "Command timed out after 600 seconds"
    rfl rfl rfl rfl rfl rfl rfl rfl rfl rfl

/- ### Claim C6 -/

/-- Claim C6: when the subprocess output decodes to a JSON object whose
`subtype` is the string `"success"`, whose `is_error` is `false` and
whose `result` is a string, the posted text is exactly that `result`
string with the fixed usage-hint footer appended. -/
theorem C6_success_footer (task_id message plugin : String) (w : World)
    (c m : String) (uid gid : Nat) (sacts tacts : List FsAction)
    (out : ProcOutput) (fields : List (String × JsonVal)) (r : String)
    (hname : pluginNameMatches plugin = true)
    (henv : w.envFile = Except.ok c)
    (hmodel : envLookup (parseEnvContent c) "MODEL" = some m)
    (hstat : w.statResult = Except.ok (uid, gid))
    (hsetup : setup_plugin_credentials (osPathJoin PLUGINS_DIR plugin) uid gid w.setup =
      Except.ok sacts)
    (hc1 : w.cacheMakedirs = Except.ok ())
    (hc2 : w.cacheChownPlugin = Except.ok ())
    (hc3 : w.cacheChownUv = Except.ok ())
    (hexec : w.execOutcome = ExecOutcome.completed out)
    (hne : pyStrip out.stdout ≠ "")
    (hload : w.jsonLoads out.stdout = Except.ok (JsonVal.obj fields))
    (hsub : jsonGet fields "subtype" = some (JsonVal.str "success"))
    (herr : jsonGet fields "is_error" = some (JsonVal.bool false))
    (hres : jsonGet fields "result" = some (JsonVal.str r))
    (htd : teardown_plugin_credentials (osPathJoin PLUGINS_DIR plugin) w.teardown =
      Except.ok tacts) :
    (run_coding_task task_id message plugin w).posted = [r ++ usage_footer] := by
  obtain ⟨ws, hens⟩ := ensure_plugin_user_always_ok plugin uid gid w.ident
  simp [run_coding_task, read_coder_env, henv, hmodel, hname, runPipeline, tryBody,
    hstat, hens, hsetup, hc1, hc2, hc3, hexec, parseStage, hne, hload, jsonGetD,
    hsub, herr, hres, jsonEqStr, jsonTruthy, htd, handleExceptions, post_result]

/-- The documented example output of the subprocess. -/
def jsonDoneOutput : String :=
  "\x7b\"subtype\":\"success\",\"is_error\":false,\"result\":\"done\"\x7d"

/-- The record `json.loads` produces for `jsonDoneOutput`. -/
def doneFields : List (String × JsonVal) :=
  [("subtype", JsonVal.str "success"), ("is_error", JsonVal.bool false),
   ("result", JsonVal.str "done")]

/-- A world whose subprocess prints `jsonDoneOutput` and exits 0. -/
def successWorld : World :=
  { envFailWorld with
    envFile := Except.ok "MODEL=m1"
    execOutcome := ExecOutcome.completed ⟨0, jsonDoneOutput, ""⟩
    jsonLoads := fun s =>
      if s = jsonDoneOutput then Except.ok (JsonVal.obj doneFields)
      else Except.error ⟨PyExcKind.jsonDecodeError, "Expecting value: line 1 column 1 (char 0)"⟩ }

/-- Witness for C6: on the documented example output the posted text is
`"done"` plus the fixed usage footer. -/
theorem C6_witness :
    (run_coding_task "t6" "m" "demo" successWorld).posted = ["done" ++ usage_footer] :=
  C6_success_footer "t6" "m" "demo" successWorld "MODEL=m1" "m1" 1000 1000
    [FsAction.makeDirs "/plugins/demo/.claude",
     FsAction.copyFile CODER_CREDENTIALS_PATH "/plugins/demo/.claude/.credentials.json",
     FsAction.chownPath "/plugins/demo/.claude" 1000 1000,
     FsAction.chmodPath "/plugins/demo/.claude" 0o700,
     FsAction.chownPath "/plugins/demo/.claude/.credentials.json" 1000 1000,
     FsAction.chmodPath "/plugins/demo/.claude/.credentials.json" 0o600]
    [FsAction.rmtreeDir "/plugins/demo/.claude"]
    ⟨0, jsonDoneOutput, ""⟩ doneFields "done"
    rfl rfl rfl rfl rfl rfl rfl rfl rfl (by decide) rfl rfl rfl rfl rfl

/- ### Claim C7 -/

/-- The `PostWorld` of a delivery attempt answered with HTTP 500. -/
def failPostW : PostWorld :=
  ⟨Except.error ⟨PyExcKind.osError, "HTTP Error 500: Internal Server Error"⟩⟩

/-- Claim C7, counterexample.  The claim states `post_result` does not
raise on a non-2xx upstream response or a network failure.  The source
has no handler around `urllib.request.urlopen`, so the `HTTPError` or
`URLError` it raises leaves `post_result`: in `failPostW` the call ends
with a raised exception. -/
theorem C7_counterexample :
    (post_result "result text" failPostW).raised.isSome = true := by
  exact rfl

/-- Claim C7 (amended): every delivery attempt serializes the payload
with the fixed `source`/`sender` fields and performs exactly one POST —
a failure is never retried — but a non-2xx response or a network
failure makes `urlopen` raise and the exception propagates out of
`post_result` (ending the task thread) instead of being contained to a
log line; only a 2xx response returns normally. -/
theorem C7_single_attempt (message : String) (w : PostWorld) :
    (post_result message w).attempts = 1 ∧
    (post_result message w).sentMessage = message ∧
    (post_result message w).sentSource = "coder" ∧
    (post_result message w).sentSender = "coder-agent" ∧
    (∀ e, w.urlopen = Except.error e → (post_result message w).raised = some e) ∧
    (∀ n, w.urlopen = Except.ok n → (post_result message w).raised = none) := by
  refine ⟨rfl, rfl, rfl, rfl, ?_, ?_⟩
  · intro e he
    simp [post_result, he]
  · intro n hn
    simp [post_result, hn]

/-- Witness for the amended C7 at a failing upstream. -/
theorem C7_single_attempt_witness :
    (post_result "hello" failPostW).attempts = 1 ∧
    (post_result "hello" failPostW).raised =
      some ⟨PyExcKind.osError, "HTTP Error 500: Internal Server Error"⟩ :=
  ⟨(C7_single_attempt "hello" failPostW).1,
   (C7_single_attempt "hello" failPostW).2.2.2.2.1 _ rfl⟩

/- ### Claim C8 -/

/-- Claim C8: for every plugin name, uid, gid and every behaviour of the
account toolchain — tools present with any exit codes (9 meaning
"already exists" included) and any stderr, or tools absent raising
`FileNotFoundError` — `ensure_plugin_user` completes without raising,
returning only its printed warning lines.  As the function is a pure
function of its oracle, this holds for every call in any sequence of
repeated calls. -/
theorem C8_never_raises (plugin_name : String) (uid gid : Nat) (w : IdentWorld) :
    ∃ warnings, ensure_plugin_user plugin_name uid gid w = Except.ok warnings :=
  ensure_plugin_user_always_ok plugin_name uid gid w

/- ### Claim C9 -/

/-- Claim C9: the account-name derivation (prefix `plug_`, hyphens to
underscores, truncation to `MAX_USERNAME_LENGTH`) is not injective over
valid plugin names: two distinct names of 28 characters, both matching
`^[a-z0-9-]+$`, are truncated to the same 32-character account name. -/
theorem C9_username_collision :
    fullPluginMatch "aaaaaaaaaaaaaaaaaaaaaaaaaaax" = true ∧
    fullPluginMatch "aaaaaaaaaaaaaaaaaaaaaaaaaaay" = true ∧
    "aaaaaaaaaaaaaaaaaaaaaaaaaaax" ≠ "aaaaaaaaaaaaaaaaaaaaaaaaaaay" ∧
    plugin_username "aaaaaaaaaaaaaaaaaaaaaaaaaaax" =
      plugin_username "aaaaaaaaaaaaaaaaaaaaaaaaaaay" := by
  refine ⟨rfl, rfl, by decide, rfl⟩

/- ### Claim C10 -/

/-- Claim C10: when the subprocess output is non-empty after stripping
but `json.loads` raises, the decode error is caught by the top-level
handler: the posted text is `"Coding task failed: "` followed by the
exception description, and teardown still runs because provisioning had
succeeded. -/
theorem C10_bad_json_reported (task_id message plugin : String) (w : World)
    (c m : String) (uid gid : Nat) (sacts tacts : List FsAction)
    (out : ProcOutput) (e : PyExc)
    (hname : pluginNameMatches plugin = true)
    (henv : w.envFile = Except.ok c)
    (hmodel : envLookup (parseEnvContent c) "MODEL" = some m)
    (hstat : w.statResult = Except.ok (uid, gid))
    (hsetup : setup_plugin_credentials (osPathJoin PLUGINS_DIR plugin) uid gid w.setup =
      Except.ok sacts)
    (hc1 : w.cacheMakedirs = Except.ok ())
    (hc2 : w.cacheChownPlugin = Except.ok ())
    (hc3 : w.cacheChownUv = Except.ok ())
    (hexec : w.execOutcome = ExecOutcome.completed out)
    (hne : pyStrip out.stdout ≠ "")
    (hload : w.jsonLoads out.stdout = Except.error e)
    (hkind : e.kind = PyExcKind.jsonDecodeError)
    (htd : teardown_plugin_credentials (osPathJoin PLUGINS_DIR plugin) w.teardown =
      Except.ok tacts) :
    (run_coding_task task_id message plugin w).posted = ["Coding task failed: " ++ e.desc] ∧
    (run_coding_task task_id message plugin w).teardownInvoked = true := by
  obtain ⟨ws, hens⟩ := ensure_plugin_user_always_ok plugin uid gid w.ident
  constructor <;>
    simp [run_coding_task, read_coder_env, henv, hmodel, hname, runPipeline, tryBody,
      hstat, hens, hsetup, hc1, hc2, hc3, hexec, parseStage, hne, hload, hkind,
      htd, handleExceptions, post_result]

/-- A world whose subprocess prints text that is not JSON. -/
def badJsonWorld : World :=
  { envFailWorld with
    envFile := Except.ok "MODEL=m1"
    execOutcome := ExecOutcome.completed ⟨1, "not json at all", "oops"⟩ }

/-- Witness for C10 at a concrete non-JSON output. -/
theorem C10_witness :
    (run_coding_task "t10" "m" "demo" badJsonWorld).posted =
      ["Coding task failed: Expecting value: line 1 column 1 (char 0)"] ∧
    (run_coding_task "t10" "m" "demo" badJsonWorld).teardownInvoked = true :=
  C10_bad_json_reported "t10" "m" "demo" badJsonWorld "MODEL=m1" "m1" 1000 1000
    [FsAction.makeDirs "/plugins/demo/.claude",
     FsAction.copyFile CODER_CREDENTIALS_PATH "/plugins/demo/.claude/.credentials.json",
     FsAction.chownPath "/plugins/demo/.claude" 1000 1000,
     FsAction.chmodPath "/plugins/demo/.claude" 0o700,
     FsAction.chownPath "/plugins/demo/.claude/.credentials.json" 1000 1000,
     FsAction.chmodPath "/plugins/demo/.claude/.credentials.json" 0o600]
    [FsAction.rmtreeDir "/plugins/demo/.claude"]
    ⟨1, "not json at all", "oops"⟩
    ⟨PyExcKind.jsonDecodeError, "Expecting value: line 1 column 1 (char 0)"⟩
    rfl rfl rfl rfl rfl rfl rfl rfl rfl (by decide) rfl rfl rfl
